import Mathlib

/-
Verification development for the meme-generator repository (src/app.py and
src/main.py): a shallow embedding of the landmark-extraction loop, the
per-face compositing pipeline, and the geometric placement computation of
add_prop, together with theorems settling the specification claims.

Modelling conventions:
* Pixel coordinates returned by the detector are modelled as exact
  rationals (the Python code uses floats; all formulas here are the exact
  readings of the source expressions).
* Angles, square roots and the derived sizes live in ℝ; Python's
  `int(...)` truncation toward zero is `truncR` / `truncQ`, `math.ceil`
  is `Int.ceil`, `round` is Mathlib's `round`.
* File-system effects are modelled by the contents of the single output
  path: `Option Img`, where `Img` records which compositing operations
  produced the persisted picture.  `Img.source` is the image loaded from
  the input URI; `Img.withGlasses bg b` is `bg` with one prop composited
  for the eye box `b` (pixel-level codec behaviour is abstracted, the
  structure of Image.open / paste / save calls is kept exactly).
* Python exceptions (ZeroDivisionError from the slope formula,
  NameError/UnboundLocalError from reading a never-assigned landmark
  variable, failures of the detector call) are `PyErr` values.
-/

namespace MemeGenerator

/-- A 2-D pixel-space coordinate (origin top-left, y grows downward),
as delivered by the face detector. -/
structure Point where
  x : ℚ
  y : ℚ
deriving DecidableEq

/-- The per-face eye box built in highlight_eyes:
`box = [(left eye left corner), (right eye right corner), (midpoint)]`;
`box[0]`, `box[1]`, `box[2]` of the source are the three fields. -/
structure Box where
  leftCorner : Point
  rightCorner : Point
  midpoint : Point
deriving DecidableEq

/-- The landmark types the code inspects; every other Vision landmark
type is `otherType` (the loop ignores it). -/
inductive LandmarkType where
  | leftEyeLeftCorner
  | rightEyeRightCorner
  | midpointBetweenEyes
  | otherType
deriving DecidableEq

/-- One `(landmarkType, position)` pair of a detected face. -/
structure Landmark where
  type_ : LandmarkType
  position : Point
deriving DecidableEq

/-- A detected face is its landmark list. -/
abbrev Face := List Landmark

/-- The three loop-carried Python locals of highlight_eyes
(verticesLeftLeftEyebrow, verticesRightRightEyebrow,
verticesMidpointEyes); `none` = not yet assigned (reading it raises
NameError in Python). -/
structure LMVars where
  left : Option Point
  right : Option Point
  mid : Option Point
deriving DecidableEq

/-- State of the landmark variables before any face is scanned. -/
def lmInit : LMVars := ⟨none, none, none⟩

/-- One iteration of the inner `for landmark in face.landmarks` loop:
three independent `if` statements, each overwriting one variable. -/
def scanLandmark (st : LMVars) (lm : Landmark) : LMVars :=
  let st1 := if lm.type_ = LandmarkType.leftEyeLeftCorner then
    { st with left := some lm.position } else st
  let st2 := if lm.type_ = LandmarkType.rightEyeRightCorner then
    { st1 with right := some lm.position } else st1
  if lm.type_ = LandmarkType.midpointBetweenEyes then
    { st2 with mid := some lm.position } else st2

/-- Scanning one face's whole landmark list, starting from the
variables as left by the previous faces (they are not reset). -/
def scanFace (st : LMVars) (f : Face) : LMVars := f.foldl scanLandmark st

/-- Building `box` from the three variables; `none` models the Python
NameError raised when one of them was never assigned by any face so far. -/
def mkBox (st : LMVars) : Option Box :=
  match st.left, st.right, st.mid with
  | some l, some r, some m => some ⟨l, r, m⟩
  | _, _, _ => none

/-- The Python exceptions the modelled pipeline can raise. -/
inductive PyErr where
  | zeroDivision
  | nameErr
  | detectionErr
deriving DecidableEq

/-- The sequence of eye boxes the extraction loop builds, one per face,
with the landmark variables carried across iterations exactly as in the
source (a face missing a landmark silently inherits the previous value;
a landmark never assigned at all raises NameError). -/
def boxesGo : LMVars → List Face → Except PyErr (List Box)
  | _, [] => Except.ok []
  | st, f :: rest =>
    let st' := scanFace st f
    match mkBox st' with
    | none => Except.error PyErr.nameErr
    | some b => (boxesGo st' rest).map (fun bs => b :: bs)

/-- Eye-box extraction over all detected faces (the shared loop body of
app.py and main.py highlight_eyes). -/
def boxesOf (faces : List Face) : Except PyErr (List Box) := boxesGo lmInit faces

/-- The provenance of the picture persisted at the output path. -/
inductive Img where
  | source
  | withGlasses (bg : Img) (b : Box)
deriving DecidableEq

/-- Whether a persisted image contains a composited prop for box `b`. -/
def hasGlassesFor : Img → Box → Bool
  | Img.source, _ => false
  | Img.withGlasses bg b', b => decide (b' = b) || hasGlassesFor bg b

/-- Lifting `hasGlassesFor` to the output-path contents. -/
def hasGlassesForO : Option Img → Box → Bool
  | none, _ => false
  | some i, b => hasGlassesFor i b

/-- app.py highlight_eyes face loop: per face, scan landmarks, build the
box, then call add_prop — which reopens the ORIGINAL image from the
input URI (`background = Image.open(requests.get(image_uri, ...).raw)`),
composites this one face's prop onto that fresh copy, and saves it to
the output path, overwriting whatever a previous face wrote.  A zero
denominator in add_prop's slope aborts with ZeroDivisionError, leaving
the file as last written. -/
def appProcess : LMVars → Option Img → List Face → Option PyErr × Option Img
  | _, file, [] => (none, file)
  | st, file, f :: rest =>
    let st' := scanFace st f
    match mkBox st' with
    | none => (some PyErr.nameErr, file)
    | some b =>
      -- the slope denominator box[1][0] - box[0][0] is zero exactly when
      -- the two x-coordinates coincide
      if b.rightCorner.x = b.leftCorner.x then (some PyErr.zeroDivision, file)
      else appProcess st' (some (Img.withGlasses Img.source b)) rest

/-- app.py generateMeme: it first removes any existing out.jpg
(`prevOut` is discarded — the path is empty from here on), then calls
the detector (`detectorOk = false` models an unreachable/rejecting
detector, whose exception propagates with the file already deleted),
then runs highlight_eyes only when at least one face was found; with
zero faces it returns successfully without writing anything. -/
def generateMeme (prevOut : Option Img) (faces : List Face)
    (detectorOk : Bool) : Option PyErr × Option Img :=
  if detectorOk then
    if 0 < faces.length then appProcess lmInit none faces
    else (none, none)
  else (some PyErr.detectionErr, none)

/-- main.py highlight_eyes loop: only the landmark variables and `box`
are updated per face (compositing happens after the loop, once). -/
def mainLoop : LMVars → Option Box → List Face → Except PyErr (Option Box)
  | _, lb, [] => Except.ok lb
  | st, _, f :: rest =>
    let st' := scanFace st f
    match mkBox st' with
    | none => Except.error PyErr.nameErr
    | some b => mainLoop st' (some b) rest

/-- main.py highlight_eyes: after the loop it saves the (unmodified)
input image to the output path and then executes `return box`; with an
empty face list `box` was never assigned, so the save succeeds and the
`return` raises UnboundLocalError. -/
def highlight_eyes (faces : List Face) : Option PyErr × Option Img × Option Box :=
  match mainLoop lmInit none faces with
  | Except.error e => (some e, none, none)
  | Except.ok none => (some PyErr.nameErr, some Img.source, none)
  | Except.ok (some b) => (none, some Img.source, some b)

/-- main.py main: highlight_eyes, then ONE add_prop call on the box of
the LAST face, reading the just-saved output file as background and
overwriting it with that single composite. -/
def main (faces : List Face) : Option PyErr × Option Img :=
  match highlight_eyes faces with
  | (some e, file, _) => (some e, file)
  | (none, file, none) => (some PyErr.nameErr, file)
  | (none, _, some b) =>
    if b.rightCorner.x = b.leftCorner.x then (some PyErr.zeroDivision, some Img.source)
    else (none, some (Img.withGlasses Img.source b))

/-- A complete face: left eye corner (1,2), right (3,2), midpoint (2,2). -/
def face1 : Face :=
  [⟨LandmarkType.leftEyeLeftCorner, ⟨1, 2⟩⟩,
   ⟨LandmarkType.rightEyeRightCorner, ⟨3, 2⟩⟩,
   ⟨LandmarkType.midpointBetweenEyes, ⟨2, 2⟩⟩]

/-- The eye box extracted from `face1`. -/
def box1 : Box := ⟨⟨1, 2⟩, ⟨3, 2⟩, ⟨2, 2⟩⟩

/-- A second complete face at different coordinates. -/
def face2full : Face :=
  [⟨LandmarkType.leftEyeLeftCorner, ⟨10, 20⟩⟩,
   ⟨LandmarkType.rightEyeRightCorner, ⟨12, 20⟩⟩,
   ⟨LandmarkType.midpointBetweenEyes, ⟨11, 20⟩⟩]

/-- The eye box extracted from `face2full`. -/
def box2 : Box := ⟨⟨10, 20⟩, ⟨12, 20⟩, ⟨11, 20⟩⟩

/-- A second face whose landmark list lacks MIDPOINT_BETWEEN_EYES. -/
def face2partial : Face :=
  [⟨LandmarkType.leftEyeLeftCorner, ⟨10, 20⟩⟩,
   ⟨LandmarkType.rightEyeRightCorner, ⟨12, 20⟩⟩]

/-- The box the code actually builds for `face2partial` when it follows
`face1`: its own eye corners, but `face1`'s midpoint (2,2). -/
def box2stale : Box := ⟨⟨10, 20⟩, ⟨12, 20⟩, ⟨2, 2⟩⟩

/-- The slope of the eye axis computed by add_prop:
`slope = ((-box[1][1]) - (-box[0][1])) / (box[1][0] - box[0][0])`
(total here; the zero-denominator case is handled by `add_prop`). -/
def slope (b : Box) : ℚ :=
  ((-b.rightCorner.y) - (-b.leftCorner.y)) / (b.rightCorner.x - b.leftCorner.x)

/-- `angle = math.degrees(math.atan(slope))`. -/
noncomputable def baseAngle (b : Box) : ℝ :=
  Real.arctan ((slope b : ℝ)) * 180 / Real.pi

/-- The rotation add_prop actually applies:
`angle + 180` when `box[0][0] > box[1][0]` (inverted face), else `angle`. -/
noncomputable def appliedAngle (b : Box) : ℝ :=
  if b.leftCorner.x > b.rightCorner.x then baseAngle b + 180 else baseAngle b

/-- `math.dist(box[1], box[0])`: Euclidean distance between the two
outer eye corners. -/
noncomputable def eyeSpan (b : Box) : ℝ :=
  Real.sqrt (((b.rightCorner.x - b.leftCorner.x : ℚ) : ℝ) ^ 2 +
    ((b.rightCorner.y - b.leftCorner.y : ℚ) : ℝ) ^ 2)

/-- Python `int(...)` on a real value: truncation toward zero. -/
noncomputable def truncR (r : ℝ) : ℤ := if 0 ≤ r then ⌊r⌋ else ⌈r⌉

/-- Python `int(...)` on a rational value: truncation toward zero. -/
def truncQ (q : ℚ) : ℤ := if 0 ≤ q then ⌊q⌋ else ⌈q⌉

/-- `size = math.ceil(math.dist(box[1], box[0]))`. -/
noncomputable def sizeCeil (b : Box) : ℤ := ⌈eyeSpan b⌉

/-- `size = int(size + 0.7 * size)`: the target width of the resized
prop (the decimal literal 0.7 is read exactly as 7/10). -/
noncomputable def targetWidth (b : Box) : ℤ :=
  truncR ((sizeCeil b : ℝ) + (7 / 10 : ℝ) * (sizeCeil b : ℝ))

/-- `int(foreground.size[1] / lengthpercent)` with
`lengthpercent = foreground.size[0] / size`: the target height, where
`(nw, nh)` is the prop's size after rotation — PIL's `rotate` keeps the
image dimensions unchanged (default `expand=False`), so this is the
prop's native size. -/
noncomputable def targetHeight (b : Box) (nw nh : ℕ) : ℤ :=
  truncR ((nh : ℝ) / ((nw : ℝ) / (targetWidth b : ℝ)))

/-- The mask argument of a PIL `paste` call. -/
inductive MaskArg where
  | noMask
  | foregroundAlpha
deriving DecidableEq

/-- One `background.paste(foreground, anchor, mask)` call. -/
structure PasteCall where
  anchor : ℤ × ℤ
  mask : MaskArg
deriving DecidableEq

/-- The paste call add_prop issues for a box and the resized prop's
final size `(w, h)`:
`background.paste(foreground, (int(box[2][0] - w/2), int(box[2][1] - h/2)), foreground)`
— the third argument is the foreground itself, so PIL uses the prop's
alpha channel as the paste mask. -/
def pasteCall (b : Box) (w h : ℤ) : PasteCall :=
  ⟨(truncQ (b.midpoint.x - (w : ℚ) / 2), truncQ (b.midpoint.y - (h : ℚ) / 2)),
   MaskArg.foregroundAlpha⟩

/-- The transform add_prop derives from one eye box and the prop's
native size: rotation angle, resize target, and the paste call. -/
structure PropTransform where
  angleDegrees : ℝ
  width : ℤ
  height : ℤ
  paste : PasteCall

/-- The transform computation of add_prop (src/app.py lines 118-138,
src/main.py lines 112-132).  The slope division raises
ZeroDivisionError when the denominator `box[1][0] - box[0][0]` is zero,
i.e. exactly when the two x-coordinates coincide; nothing from that
point on is executed. -/
noncomputable def add_prop (b : Box) (nw nh : ℕ) : Except PyErr PropTransform :=
  if b.rightCorner.x = b.leftCorner.x then Except.error PyErr.zeroDivision
  else Except.ok
    { angleDegrees := appliedAngle b
      width := targetWidth b
      height := targetHeight b nw nh
      paste := pasteCall b (targetWidth b) (targetHeight b nw nh) }

/-- The degenerate box of claim C4: eye corners exactly vertically
aligned (same x-coordinate 5). -/
def degBox : Box := ⟨⟨5, 1⟩, ⟨5, 9⟩, ⟨5, 5⟩⟩

/-- Truncation of a nonnegative real is its floor. -/
theorem truncR_of_nonneg {r : ℝ} (h : 0 ≤ r) : truncR r = ⌊r⌋ := if_pos h

/-- Truncation toward zero lands within one of its argument. -/
theorem truncR_sub_lt (r : ℝ) : |(truncR r : ℝ) - r| < 1 := by
  unfold truncR
  rw [abs_lt]
  split
  · constructor
    · have := Int.sub_one_lt_floor r
      linarith
    · have := Int.floor_le r
      linarith
  · constructor
    · have := Int.le_ceil r
      linarith
    · have := Int.ceil_lt_add_one r
      linarith

/-- Rational truncation toward zero lands within one of its argument. -/
theorem truncQ_sub_lt (q : ℚ) : |(truncQ q : ℚ) - q| < 1 := by
  unfold truncQ
  rw [abs_lt]
  split
  · constructor
    · have := Int.sub_one_lt_floor q
      linarith
    · have := Int.floor_le q
      linarith
  · constructor
    · have := Int.le_ceil q
      linarith
    · have := Int.ceil_lt_add_one q
      linarith

/-- The eye span is a square root, hence nonnegative. -/
theorem eyeSpan_nonneg (b : Box) : 0 ≤ eyeSpan b := Real.sqrt_nonneg _

/-- A strictly positive eye span gives `size = ceil(span) ≥ 1`. -/
theorem sizeCeil_ge_one {b : Box} (h : 0 < eyeSpan b) : 1 ≤ sizeCeil b := by
  have := Int.ceil_pos.mpr h
  unfold sizeCeil
  omega

/-- A strictly positive eye span gives a strictly positive target width. -/
theorem targetWidth_ge_one {b : Box} (h : 0 < eyeSpan b) : 1 ≤ targetWidth b := by
  have h1 : (1 : ℤ) ≤ sizeCeil b := sizeCeil_ge_one h
  have h2 : (1 : ℝ) ≤ (sizeCeil b : ℝ) := by exact_mod_cast h1
  have h3 : (0 : ℝ) ≤ (sizeCeil b : ℝ) + (7 / 10 : ℝ) * (sizeCeil b : ℝ) := by linarith
  unfold targetWidth
  rw [truncR_of_nonneg h3]
  apply Int.le_floor.mpr
  push_cast
  linarith

/-- The target width is monotone in the eye span. -/
theorem targetWidth_mono {b1 b2 : Box} (h : eyeSpan b1 ≤ eyeSpan b2) :
    targetWidth b1 ≤ targetWidth b2 := by
  have hc : sizeCeil b1 ≤ sizeCeil b2 := Int.ceil_mono h
  have hc0 : (0 : ℤ) ≤ sizeCeil b1 := Int.ceil_nonneg (eyeSpan_nonneg b1)
  have hc0' : (0 : ℝ) ≤ (sizeCeil b1 : ℝ) := by exact_mod_cast hc0
  have hcr : (sizeCeil b1 : ℝ) ≤ (sizeCeil b2 : ℝ) := by exact_mod_cast hc
  unfold targetWidth
  rw [truncR_of_nonneg (by linarith), truncR_of_nonneg (by linarith)]
  exact Int.floor_le_floor (by linarith)

/-- The computed height is within one pixel of the exact
aspect-preserving value `nh * width / nw`. -/
theorem targetHeight_aspect {b : Box} {nw nh : ℕ} (hnw : 0 < nw)
    (hw : 0 < targetWidth b) :
    |(targetHeight b nw nh : ℝ) - (nh : ℝ) * (targetWidth b : ℝ) / (nw : ℝ)| < 1 := by
  have hnw' : (nw : ℝ) ≠ 0 := Nat.cast_ne_zero.mpr hnw.ne'
  have hw' : (targetWidth b : ℝ) ≠ 0 := Int.cast_ne_zero.mpr hw.ne'
  have hdiv : (nh : ℝ) / ((nw : ℝ) / (targetWidth b : ℝ))
      = (nh : ℝ) * (targetWidth b : ℝ) / (nw : ℝ) := by
    field_simp
  unfold targetHeight
  rw [hdiv]
  exact truncR_sub_lt _

/-- A face whose eye corners are vertically aligned, wrapped as a
detector response. -/
def degFace : Face :=
  [⟨LandmarkType.leftEyeLeftCorner, ⟨5, 1⟩⟩,
   ⟨LandmarkType.rightEyeRightCorner, ⟨5, 9⟩⟩,
   ⟨LandmarkType.midpointBetweenEyes, ⟨5, 5⟩⟩]

/-- An inverted eye box: the left-eye corner (x = 10) lies to the right
of the right-eye corner (x = 0). -/
def invBox : Box := ⟨⟨10, 0⟩, ⟨0, 0⟩, ⟨5, 0⟩⟩

/-- An upright eye box: left-eye corner at x = 0, right at x = 10. -/
def uprBox : Box := ⟨⟨0, 0⟩, ⟨10, 0⟩, ⟨5, 0⟩⟩

/-- Level eyes of claim C6: leftCorner = (0,0), rightCorner = (10,0). -/
def c6Level : Box := ⟨⟨0, 0⟩, ⟨10, 0⟩, ⟨5, 0⟩⟩

/-- Tilted eyes of claim C6: leftCorner = (0,0), rightCorner = (10,-10)
(right eye higher in the y-up sense). -/
def c6Tilt : Box := ⟨⟨0, 0⟩, ⟨10, -10⟩, ⟨5, -5⟩⟩

/-- Claim C1: the claim says all N detected faces accumulate onto one
shared canvas.  The code does not: add_prop reopens the original image
from the input URI for every face and overwrites the output file, so
with two complete faces the run succeeds but the persisted image holds
the composited glasses only for the last face's box (`box2`) and not
for the first face's box (`box1`). -/
theorem multiFace_overwrites_prior_glasses :
    generateMeme none [face1, face2full] true
      = (none, some (Img.withGlasses Img.source box2)) ∧
    hasGlassesForO (some (Img.withGlasses Img.source box2)) box2 = true ∧
    hasGlassesForO (some (Img.withGlasses Img.source box2)) box1 = false :=
  ⟨rfl, rfl, rfl⟩

/-- Claim C2: the claim says a face lacking one of the three landmark
types fails extraction rather than reusing a stale value.  The code
silently reuses the loop-carried variable: after a complete `face1`,
the incomplete `face2partial` (whose landmark list contains no
MIDPOINT_BETWEEN_EYES entry) yields a box with its own eye corners but
`face1`'s midpoint, and no error is raised. -/
theorem missing_landmark_reuses_stale_midpoint :
    boxesOf [face1, face2partial] = Except.ok [box1, box2stale] ∧
    box2stale.midpoint = box1.midpoint ∧
    face2partial.filter
      (fun lm => decide (lm.type_ = LandmarkType.midpointBetweenEyes)) = [] :=
  ⟨rfl, rfl, rfl⟩

/-- Claim C3: the claim says a zero-face response completes successfully
and still emits an output identical to the input.  In app.py the run
completes with no error but emits no output at all (any pre-existing
output was deleted); in main.py the unchanged input is saved but the
pipeline then aborts on `return box` (UnboundLocalError). -/
theorem zero_faces_outputs :
    generateMeme (some Img.source) [] true = (none, none) ∧
    main [] = (some PyErr.nameErr, some Img.source) :=
  ⟨rfl, rfl⟩

/-- Claim C4: the claim says the slope division is guarded so that
vertically aligned eye corners give a defined result.  It is not: on a
box with equal x-coordinates add_prop raises ZeroDivisionError, and the
exception propagates uncaught out of the whole request. -/
theorem vertical_eyes_zero_division :
    add_prop degBox 100 50 = Except.error PyErr.zeroDivision ∧
    generateMeme none [degFace] true = (some PyErr.zeroDivision, none) :=
  ⟨rfl, rfl⟩

/-- Claim C5: for an inverted box (leftCorner.x > rightCorner.x) the
applied rotation is baseAngle + 180, and for leftCorner.x <
rightCorner.x it is baseAngle unmodified. -/
theorem inversion_adds_180 (b : Box) :
    (b.leftCorner.x > b.rightCorner.x → appliedAngle b = baseAngle b + 180) ∧
    (b.leftCorner.x < b.rightCorner.x → appliedAngle b = baseAngle b) := by
  constructor
  · intro h
    unfold appliedAngle
    rw [if_pos h]
  · intro h
    unfold appliedAngle
    rw [if_neg (lt_asymm h)]

/-- Witness for claim C5 at the concrete inverted and upright boxes. -/
theorem inversion_adds_180_witness :
    appliedAngle invBox = baseAngle invBox + 180 ∧
    appliedAngle uprBox = baseAngle uprBox :=
  ⟨(inversion_adds_180 invBox).1 (by norm_num [invBox]),
   (inversion_adds_180 uprBox).2 (by norm_num [uprBox])⟩

/-- Claim C6: for rightCorner.x ≠ leftCorner.x the base angle is
atan(((-rightCorner.y) - (-leftCorner.y)) / (rightCorner.x - leftCorner.x))
in degrees; level eyes (0,0)-(10,0) give angle 0, and (0,0)-(10,-10)
gives a strictly positive angle. -/
theorem baseAngle_formula_and_sign (b : Box)
    (h : b.rightCorner.x ≠ b.leftCorner.x) :
    baseAngle b = Real.arctan ((-(b.rightCorner.y : ℝ) - -(b.leftCorner.y : ℝ)) /
      ((b.rightCorner.x : ℝ) - (b.leftCorner.x : ℝ))) * 180 / Real.pi ∧
    baseAngle c6Level = 0 ∧
    0 < baseAngle c6Tilt := by
  refine ⟨?_, ?_, ?_⟩
  · have hs : ((slope b : ℚ) : ℝ) = (-(b.rightCorner.y : ℝ) - -(b.leftCorner.y : ℝ)) /
        ((b.rightCorner.x : ℝ) - (b.leftCorner.x : ℝ)) := by
      unfold slope
      push_cast
      ring
    unfold baseAngle
    rw [hs]
  · have h0 : slope c6Level = 0 := by norm_num [slope, c6Level]
    simp [baseAngle, h0]
  · have h1 : slope c6Tilt = 1 := by norm_num [slope, c6Tilt]
    unfold baseAngle
    rw [h1]
    rw [Rat.cast_one, Real.arctan_one]
    positivity

/-- Witness for claim C6 at the level box. -/
theorem baseAngle_formula_and_sign_witness :
    baseAngle c6Level = Real.arctan ((-(c6Level.rightCorner.y : ℝ) -
      -(c6Level.leftCorner.y : ℝ)) /
      ((c6Level.rightCorner.x : ℝ) - (c6Level.leftCorner.x : ℝ))) * 180 / Real.pi ∧
    baseAngle c6Level = 0 ∧
    0 < baseAngle c6Tilt :=
  baseAngle_formula_and_sign c6Level (by norm_num [c6Level])

/-- An eye box with span exactly 1: leftCorner (0,0), rightCorner (1,0). -/
def c7box : Box := ⟨⟨0, 0⟩, ⟨1, 0⟩, ⟨1 / 2, 0⟩⟩

/-- An eye box with span 5/2. -/
def cA : Box := ⟨⟨0, 0⟩, ⟨5 / 2, 0⟩, ⟨5 / 4, 0⟩⟩

/-- An eye box with span 3. -/
def cB : Box := ⟨⟨0, 0⟩, ⟨3, 0⟩, ⟨3 / 2, 0⟩⟩

/-- A 3-4-5 eye box with span 5. -/
def wbox : Box := ⟨⟨0, 0⟩, ⟨3, 4⟩, ⟨3 / 2, 2⟩⟩

/-- A 3-4-5 eye box with span 5, offset from the origin. -/
def w9a : Box := ⟨⟨1, 1⟩, ⟨4, 5⟩, ⟨5 / 2, 3⟩⟩

/-- A 6-8-10 eye box with span 10. -/
def w9b : Box := ⟨⟨0, 0⟩, ⟨6, 8⟩, ⟨3, 4⟩⟩

/-- The span of `c7box` is 1. -/
theorem eyeSpan_c7box : eyeSpan c7box = 1 := by
  unfold eyeSpan
  have h : ((c7box.rightCorner.x - c7box.leftCorner.x : ℚ) : ℝ) ^ 2 +
      ((c7box.rightCorner.y - c7box.leftCorner.y : ℚ) : ℝ) ^ 2 = 1 := by
    norm_num [c7box]
  rw [h, Real.sqrt_one]

/-- The ceiled span of `c7box` is 1. -/
theorem sizeCeil_c7box : sizeCeil c7box = 1 := by
  unfold sizeCeil
  rw [eyeSpan_c7box]
  norm_num

/-- The target width of `c7box` is `int(1 + 0.7 * 1) = 1`. -/
theorem targetWidth_c7box : targetWidth c7box = 1 := by
  unfold targetWidth
  rw [sizeCeil_c7box]
  unfold truncR
  rw [if_pos (by norm_num)]
  norm_num

/-- For a 10-wide 27-tall prop on `c7box`, the code computes height
`int(27 / (10 / 1)) = int(2.7) = 2`. -/
theorem targetHeight_c7box : targetHeight c7box 10 27 = 2 := by
  unfold targetHeight
  rw [targetWidth_c7box]
  unfold truncR
  rw [if_pos (by norm_num)]
  norm_num

/-- Claim C7 (counterexample): for `c7box` (eye span 1, target width 1)
and a prop of native size 10 × 27 the code computes target height
`int(2.7) = 2`, while the claim's formula `round(27 / (10 / 1)) = 3`;
the height is truncated, not rounded. -/
theorem targetHeight_truncates_not_rounds :
    targetWidth c7box = 1 ∧
    targetHeight c7box 10 27 = 2 ∧
    round ((27 : ℝ) / ((10 : ℝ) / (targetWidth c7box : ℝ))) = 3 ∧
    targetHeight c7box 10 27
      ≠ round ((27 : ℝ) / ((10 : ℝ) / (targetWidth c7box : ℝ))) := by
  have hr : round ((27 : ℝ) / ((10 : ℝ) / (targetWidth c7box : ℝ))) = 3 := by
    rw [targetWidth_c7box]
    norm_num [round_eq]
  refine ⟨targetWidth_c7box, targetHeight_c7box, hr, ?_⟩
  rw [targetHeight_c7box, hr]
  omega

/-- Claim C7 (amended): the target width is `ceil(eyeSpan) * 1.7`
truncated to an integer; the target height is
`nativeHeight / (nativeWidth / targetWidth)` truncated toward zero
(Python `int`, not rounding to nearest), which still preserves the
prop's aspect ratio to within one pixel. -/
theorem transform_size_formulas (b : Box) (nw nh : ℕ) (hnw : 0 < nw)
    (hd : 0 < eyeSpan b) :
    targetWidth b = truncR ((sizeCeil b : ℝ) * (17 / 10 : ℝ)) ∧
    targetHeight b nw nh = truncR ((nh : ℝ) / ((nw : ℝ) / (targetWidth b : ℝ))) ∧
    |(targetHeight b nw nh : ℝ) - (nh : ℝ) * (targetWidth b : ℝ) / (nw : ℝ)| < 1 := by
  refine ⟨?_, rfl, ?_⟩
  · unfold targetWidth
    congr 1
    ring
  · refine targetHeight_aspect hnw ?_
    have := targetWidth_ge_one hd
    omega

/-- The span of `wbox` is positive. -/
theorem eyeSpan_wbox_pos : 0 < eyeSpan wbox := by
  unfold eyeSpan
  apply Real.sqrt_pos.mpr
  norm_num [wbox]

/-- Witness for claim C7 (amended) at `wbox` with a 4 × 2 prop. -/
theorem transform_size_formulas_witness :
    targetWidth wbox = truncR ((sizeCeil wbox : ℝ) * (17 / 10 : ℝ)) ∧
    targetHeight wbox 4 2
      = truncR (((2 : ℕ) : ℝ) / (((4 : ℕ) : ℝ) / (targetWidth wbox : ℝ))) ∧
    |(targetHeight wbox 4 2 : ℝ) -
      ((2 : ℕ) : ℝ) * (targetWidth wbox : ℝ) / ((4 : ℕ) : ℝ)| < 1 :=
  transform_size_formulas wbox 4 2 (by norm_num) eyeSpan_wbox_pos

/-- Claim C8: the paste call passes the foreground itself as the mask
(so its alpha channel masks the paste), its anchor is the truncation of
`(midpoint.x - w/2, midpoint.y - h/2)`, and hence the pasted prop's
geometric center `anchor + (w/2, h/2)` lies within one pixel of the eye
midpoint. -/
theorem paste_centers_on_midpoint (b : Box) (w h : ℤ) :
    (pasteCall b w h).mask = MaskArg.foregroundAlpha ∧
    (pasteCall b w h).anchor
      = (truncQ (b.midpoint.x - (w : ℚ) / 2), truncQ (b.midpoint.y - (h : ℚ) / 2)) ∧
    |((pasteCall b w h).anchor.1 : ℚ) + (w : ℚ) / 2 - b.midpoint.x| < 1 ∧
    |((pasteCall b w h).anchor.2 : ℚ) + (h : ℚ) / 2 - b.midpoint.y| < 1 := by
  refine ⟨rfl, rfl, ?_, ?_⟩
  · have ht := truncQ_sub_lt (b.midpoint.x - (w : ℚ) / 2)
    have heq : ((pasteCall b w h).anchor.1 : ℚ) + (w : ℚ) / 2 - b.midpoint.x
        = (truncQ (b.midpoint.x - (w : ℚ) / 2) : ℚ)
          - (b.midpoint.x - (w : ℚ) / 2) := by
      show (truncQ (b.midpoint.x - (w : ℚ) / 2) : ℚ) + (w : ℚ) / 2 - b.midpoint.x = _
      ring
    rw [heq]
    exact ht
  · have ht := truncQ_sub_lt (b.midpoint.y - (h : ℚ) / 2)
    have heq : ((pasteCall b w h).anchor.2 : ℚ) + (h : ℚ) / 2 - b.midpoint.y
        = (truncQ (b.midpoint.y - (h : ℚ) / 2) : ℚ)
          - (b.midpoint.y - (h : ℚ) / 2) := by
      show (truncQ (b.midpoint.y - (h : ℚ) / 2) : ℚ) + (h : ℚ) / 2 - b.midpoint.y = _
      ring
    rw [heq]
    exact ht

/-- The span of `cA` is 5/2. -/
theorem eyeSpan_cA : eyeSpan cA = 5 / 2 := by
  unfold eyeSpan
  have h : ((cA.rightCorner.x - cA.leftCorner.x : ℚ) : ℝ) ^ 2 +
      ((cA.rightCorner.y - cA.leftCorner.y : ℚ) : ℝ) ^ 2 = (5 / 2 : ℝ) ^ 2 := by
    norm_num [cA]
  rw [h, Real.sqrt_sq (by norm_num : (0 : ℝ) ≤ 5 / 2)]

/-- The span of `cB` is 3. -/
theorem eyeSpan_cB : eyeSpan cB = 3 := by
  unfold eyeSpan
  have h : ((cB.rightCorner.x - cB.leftCorner.x : ℚ) : ℝ) ^ 2 +
      ((cB.rightCorner.y - cB.leftCorner.y : ℚ) : ℝ) ^ 2 = (3 : ℝ) ^ 2 := by
    norm_num [cB]
  rw [h, Real.sqrt_sq (by norm_num : (0 : ℝ) ≤ 3)]

/-- The target width of `cA`: `ceil(5/2) = 3`, `int(3 + 0.7*3) = 5`. -/
theorem targetWidth_cA : targetWidth cA = 5 := by
  unfold targetWidth sizeCeil
  rw [eyeSpan_cA]
  have hc : ⌈(5 / 2 : ℝ)⌉ = 3 := by
    rw [Int.ceil_eq_iff]
    constructor <;> norm_num
  rw [hc]
  unfold truncR
  rw [if_pos (by norm_num)]
  norm_num

/-- The target width of `cB`: `ceil(3) = 3`, `int(3 + 0.7*3) = 5`. -/
theorem targetWidth_cB : targetWidth cB = 5 := by
  unfold targetWidth sizeCeil
  rw [eyeSpan_cB]
  have hc : ⌈(3 : ℝ)⌉ = 3 := by norm_num
  rw [hc]
  unfold truncR
  rw [if_pos (by norm_num)]
  norm_num

/-- Claim C9 (counterexample): the boxes `cA` and `cB` have eye spans
5/2 < 3 but the same target width 5 — because the width depends only on
the ceiled span, strict monotonicity fails. -/
theorem targetWidth_not_strictly_monotone :
    eyeSpan cA < eyeSpan cB ∧
    targetWidth cA = 5 ∧ targetWidth cB = 5 ∧
    ¬ targetWidth cA < targetWidth cB := by
  refine ⟨?_, targetWidth_cA, targetWidth_cB, ?_⟩
  · rw [eyeSpan_cA, eyeSpan_cB]
    norm_num
  · rw [targetWidth_cA, targetWidth_cB]
    omega

/-- Claim C9 (amended): the target width is monotone (non-decreasing)
in the eye span — strict growth fails when two spans share a ceiling —
and the aspect ratio of each transformed prop is preserved within one
pixel. -/
theorem targetWidth_monotone_aspect_preserved (b1 b2 : Box) (nw nh : ℕ)
    (hspan : eyeSpan b1 ≤ eyeSpan b2) (hnw : 0 < nw) (hd : 0 < eyeSpan b1) :
    targetWidth b1 ≤ targetWidth b2 ∧
    |(targetHeight b1 nw nh : ℝ) - (nh : ℝ) * (targetWidth b1 : ℝ) / (nw : ℝ)| < 1 ∧
    |(targetHeight b2 nw nh : ℝ) - (nh : ℝ) * (targetWidth b2 : ℝ) / (nw : ℝ)| < 1 := by
  refine ⟨targetWidth_mono hspan, targetHeight_aspect hnw ?_, targetHeight_aspect hnw ?_⟩
  · have := targetWidth_ge_one hd
    omega
  · have := targetWidth_ge_one (lt_of_lt_of_le hd hspan)
    omega

/-- The span of `w9a` is positive. -/
theorem eyeSpan_w9a_pos : 0 < eyeSpan w9a := by
  unfold eyeSpan
  apply Real.sqrt_pos.mpr
  norm_num [w9a]

/-- The span of `w9a` (5) is at most the span of `w9b` (10). -/
theorem eyeSpan_w9a_le : eyeSpan w9a ≤ eyeSpan w9b := by
  unfold eyeSpan
  apply Real.sqrt_le_sqrt
  norm_num [w9a, w9b]

/-- Witness for claim C9 (amended) at `w9a`, `w9b` with a 4 × 2 prop. -/
theorem targetWidth_monotone_aspect_preserved_witness :
    targetWidth w9a ≤ targetWidth w9b ∧
    |(targetHeight w9a 4 2 : ℝ) -
      ((2 : ℕ) : ℝ) * (targetWidth w9a : ℝ) / ((4 : ℕ) : ℝ)| < 1 ∧
    |(targetHeight w9b 4 2 : ℝ) -
      ((2 : ℕ) : ℝ) * (targetWidth w9b : ℝ) / ((4 : ℕ) : ℝ)| < 1 :=
  targetWidth_monotone_aspect_preserved w9a w9b 4 2 eyeSpan_w9a_le
    (by norm_num) eyeSpan_w9a_pos

/-- Claim C10 (counterexample): with an artifact already present at the
output path, a detector failure leaves the path EMPTY, not unchanged —
generateMeme deletes the existing out.jpg before calling the detector. -/
theorem detector_failure_clears_existing_output :
    (generateMeme (some (Img.withGlasses Img.source box1)) [] false).2 = none ∧
    (generateMeme (some (Img.withGlasses Img.source box1)) [] false).2
      ≠ some (Img.withGlasses Img.source box1) :=
  ⟨rfl, fun hcon => nomatch hcon⟩

/-- Claim C10 (amended): on a catastrophic pre-compositing failure
(detector unreachable or rejecting) no partial output is persisted for
the request — the error surfaces and the output path ends empty — but
any previously existing artifact was already deleted, so the
destination's state is cleared rather than left unchanged. -/
theorem detector_failure_no_partial_output (prevOut : Option Img) (faces : List Face) :
    generateMeme prevOut faces false = (some PyErr.detectionErr, none) := rfl

end MemeGenerator
